import Mathlib

/-!
# Verification of `src/bootstrap/check.rs` (check-based build pipeline)

Shallow embedding of the bootstrap "check" pipeline: the `Std` (library),
`Rustc` (compiler) and tool (`Rustdoc`/`Clippy`/`Bootstrap`) build units of
`src/bootstrap/check.rs`, together with their stamp paths and the
spec-modelled external collaborators (`run_cargo`, `add_to_sysroot`, the
`ensure` dependency engine).

Each unit runner is a function from an environment (outcomes and artifact
lists of the external compiler invocations) and a state (invocation counter,
stamp files, sysroot contents, event trace) to a new state plus a run
result.  The event trace records dependency requests, external invocations,
stamp writes and sysroot publishes in program order, so that ordering
claims can be stated over it.
-/

namespace BootstrapCheck

/-- The bootstrap subcommand kinds (`builder::Kind`). -/
inductive Kind where
  | build
  | check
  | clippy
  | fix
  | format
  | doc
  | test
  | bench
  | dist
  | install
  | run
deriving DecidableEq, Repr

/-- Build modes used by `check.rs` (`crate::Mode`). -/
inductive Mode where
  | std
  | rustc
  | codegen
  | toolBootstrap
  | toolStd
  | toolRustc
deriving DecidableEq, Repr

/-- `crate::tool::SourceType`. -/
inductive SourceType where
  | inTree
  | submodule
deriving DecidableEq, Repr

/-- `crate::Compiler`: a stage number plus the host it runs on.
Targets are identified by their triple string. -/
structure Compiler where
  stage : Nat
  host : String
deriving DecidableEq, Repr

/-- The part of `crate::Subcommand` that `check.rs` inspects: the
`Subcommand::Check { all_targets, .. }` pattern; every other variant is
collapsed into constructors it never distinguishes. -/
inductive Subcommand where
  | check (all_targets : Bool)
  | clippy
  | fix
  | other
deriving DecidableEq, Repr

/-- `fn args(kind: Kind) -> Vec<String>` from check.rs: extra arguments per
kind; Clippy gets `-- --cap-lints warn`, everything else nothing. -/
def args (kind : Kind) : List String :=
  match kind with
  | .clippy => ["--", "--cap-lints", "warn"]
  | _ => []

/-- `fn cargo_subcommand(kind: Kind) -> &'static str` from check.rs.  The
`unreachable!()` arm is modelled as `none` (a panic). -/
def cargo_subcommand (kind : Kind) : Option String :=
  match kind with
  | .check => some "check"
  | .clippy => some "clippy"
  | .fix => some "fix"
  | _ => none

/-- A filesystem path, kept as the directory it lives in plus the file name
joined onto it (`dir.join(file)` in the source). -/
structure Path where
  dir : String
  file : String
deriving DecidableEq, Repr

/-- The slice of `Builder` and its `Config` that `check.rs` reads:
the subcommand kind, the parsed command (`config.cmd`), the build triple
(`config.build`), and the external collaborators `in_tree_crates`,
`cargo_out` and `sysroot_libdir` as opaque functions. -/
structure Builder where
  kind : Kind
  cmd : Subcommand
  build : String
  inTreeCrates : String → List String
  cargoOut : Compiler → Mode → String → String
  sysrootLibdir : Compiler → String → String

/-- The `if let Subcommand::Check { all_targets: true, .. } = builder.config.cmd`
pattern used by every unit. -/
def Builder.checkAllTargets (b : Builder) : Bool :=
  match b.cmd with
  | .check true => true
  | _ => false

/-- `fn libstd_stamp`: `cargo_out(compiler, Mode::Std, target).join(".libstd-check.stamp")`. -/
def libstd_stamp (b : Builder) (compiler : Compiler) (target : String) : Path :=
  ⟨b.cargoOut compiler .std target, ".libstd-check.stamp"⟩

/-- `fn libstd_test_stamp`: `cargo_out(compiler, Mode::Std, target).join(".libstd-check-test.stamp")`. -/
def libstd_test_stamp (b : Builder) (compiler : Compiler) (target : String) : Path :=
  ⟨b.cargoOut compiler .std target, ".libstd-check-test.stamp"⟩

/-- `fn librustc_stamp`: `cargo_out(compiler, Mode::Rustc, target).join(".librustc-check.stamp")`. -/
def librustc_stamp (b : Builder) (compiler : Compiler) (target : String) : Path :=
  ⟨b.cargoOut compiler .rustc target, ".librustc-check.stamp"⟩

/-- The `stamp` helper generated inside `tool_check_step!`:
`cargo_out(compiler, Mode::ToolRustc, target).join(format!(".{}-check.stamp", name))`
where `name` is `stringify!($name).to_lowercase()`. -/
def tool_stamp (b : Builder) (compiler : Compiler) (target : String) (name : String) : Path :=
  ⟨b.cargoOut compiler .toolRustc target, "." ++ name ++ "-check.stamp"⟩

/-- What one constructed cargo invocation carries by the time `run_cargo`
receives it: builder compiler/mode/target, the chosen cargo sub-command,
tool path and source type (for `prepare_tool_cargo`), whether
`--all-targets` was pushed, and the crates passed with `-p`. -/
structure CargoInvocation where
  compiler : Compiler
  mode : Mode
  target : String
  subcommand : String
  toolPath : Option String
  sourceType : Option SourceType
  allTargets : Bool
  pSelectors : List String
deriving DecidableEq, Repr

/-- A dependency request handed to `builder.ensure`. -/
inductive Request where
  | std (target : String)
  | rustc (target : String)
deriving DecidableEq, Repr

/-- Observable events of one pipeline run, in program order. -/
inductive Event where
  | ensured (req : Request)
  | invoked (inv : CargoInvocation) (extra : List String) (stampPath : Path) (success : Bool)
  | stamped (stampPath : Path)
  | published (libdir hostdir : String) (stampPath : Path)
deriving DecidableEq, Repr

/-- Environment: for the k-th external compiler invocation of a run, whether
it succeeds and which artifact files (name, content) it produces. -/
structure Env where
  outcome : Nat → Bool
  artifacts : Nat → List (String × Nat)

/-- Mutable world state threaded through a run: the number of external
invocations so far, the stamp files (newest first, each enumerating the
artifacts of the build it recorded), the sysroot contents (directory, file
name, content; newest first) and the event trace. -/
structure St where
  ctr : Nat
  stamps : List (Path × List (String × Nat))
  sysroot : List (String × String × Nat)
  trace : List Event

/-- A starting state: no invocations yet, empty trace, arbitrary
pre-existing stamp files and sysroot contents. -/
def St.start (stamps : List (Path × List (String × Nat)))
    (sysroot : List (String × String × Nat)) : St :=
  ⟨0, stamps, sysroot, []⟩

/-- Newest-first lookup of a stamp file. -/
def stampLookup (stamps : List (Path × List (String × Nat))) (p : Path) :
    Option (List (String × Nat)) :=
  match stamps with
  | [] => none
  | (q, a) :: rest => if q = p then some a else stampLookup rest p

/-- Newest-first lookup of a sysroot entry by directory and file name. -/
def sysLookup (sys : List (String × String × Nat)) (d n : String) : Option Nat :=
  match sys with
  | [] => none
  | (d2, n2, c) :: rest => if d2 = d ∧ n2 = n then some c else sysLookup rest d n

/-- One copy step of the sysroot publisher: install content `c` under
`(d, n)`, skipping the copy when an identical artifact is already there. -/
def sysUpsert (sys : List (String × String × Nat)) (d n : String) (c : Nat) :
    List (String × String × Nat) :=
  if sysLookup sys d n = some c then sys else (d, n, c) :: sys

/-- Copy a list of artifacts into one destination directory. -/
def sysPublish (sys : List (String × String × Nat)) (d : String) :
    List (String × Nat) → List (String × String × Nat)
  | [] => sys
  | a :: rest => sysPublish (sysUpsert sys d a.1 a.2) d rest

/-- Modelled from the spec: `run_cargo` (external, in `crate::compile`, not
under src/) runs the external crate-graph compiler invocation and, only when
it succeeds, writes the stamp file enumerating the artifacts the build
produced; on failure it writes nothing and reports failure, which aborts the
chain.  The state records the invocation event either way. -/
def runCargo (env : Env) (st : St) (inv : CargoInvocation) (extra : List String)
    (stampPath : Path) : St × Bool :=
  if env.outcome st.ctr then
    ({ ctr := st.ctr + 1
       stamps := (stampPath, env.artifacts st.ctr) :: st.stamps
       sysroot := st.sysroot
       trace := st.trace ++ [.invoked inv extra stampPath true, .stamped stampPath] }, true)
  else
    ({ st with
       ctr := st.ctr + 1
       trace := st.trace ++ [.invoked inv extra stampPath false] }, false)

/-- Modelled from the spec: `add_to_sysroot` (external, in `crate::compile`,
not under src/) copies every artifact enumerated by the stamp file into both
the target's and the host's sysroot library directories, skipping
already-present identical artifacts and never removing entries belonging to
other units. -/
def add_to_sysroot (st : St) (libdir hostdir : String) (stampPath : Path) : St :=
  let arts := (stampLookup st.stamps stampPath).getD []
  { st with
    sysroot := sysPublish (sysPublish st.sysroot libdir arts) hostdir arts
    trace := st.trace ++ [.published libdir hostdir stampPath] }

/-- Outcome of one unit run: normal completion, a failed external build
(aborting the chain), or a panic (`unreachable!` in `cargo_subcommand`). -/
inductive RunResult where
  | ok
  | buildFailed
  | panicked
deriving DecidableEq, Repr

/-- `Std::run` from check.rs: build the library crate set for `target` with
the stage-0 compiler, publish the artifacts into the target's and host's
sysroot library directories, and — when the parsed command is
`Check { all_targets: true }` — run a second pass with `--all-targets` and
an explicit `-p` selector for every in-tree crate of the `"test"` tree,
recorded under the distinct test stamp. -/
def Std.run (env : Env) (b : Builder) (target : String) (st : St) : St × RunResult :=
  let compiler : Compiler := ⟨0, b.build⟩
  match cargo_subcommand b.kind with
  | none => (st, .panicked)
  | some sub =>
    let inv1 : CargoInvocation :=
      { compiler := compiler, mode := .std, target := target, subcommand := sub
        toolPath := none, sourceType := some .inTree
        allTargets := false, pSelectors := [] }
    let p1 := runCargo env st inv1 (args b.kind) (libstd_stamp b compiler target)
    if p1.2 then
      let libdir := b.sysrootLibdir compiler target
      let hostdir := b.sysrootLibdir compiler compiler.host
      let st2 := add_to_sysroot p1.1 libdir hostdir (libstd_stamp b compiler target)
      if b.checkAllTargets then
        let inv2 : CargoInvocation :=
          { compiler := compiler, mode := .std, target := target, subcommand := sub
            toolPath := none, sourceType := some .inTree
            allTargets := true, pSelectors := b.inTreeCrates "test" }
        let p2 := runCargo env st2 inv2 (args b.kind) (libstd_test_stamp b compiler target)
        (p2.1, if p2.2 then .ok else .buildFailed)
      else
        (st2, .ok)
    else
      (p1.1, .buildFailed)

/-- `Rustc::run` from check.rs: first `builder.ensure(Std { target })`, then
build the compiler crate set (always passing `-p` for every in-tree crate of
the `"rustc-main"` tree, and `--all-targets` when the command requests full
coverage) and publish under the librustc stamp. -/
def Rustc.run (env : Env) (b : Builder) (target : String) (st : St) : St × RunResult :=
  let compiler : Compiler := ⟨0, b.build⟩
  let st0 := { st with trace := st.trace ++ [.ensured (.std target)] }
  match Std.run env b target st0 with
  | (st1, .ok) =>
    match cargo_subcommand b.kind with
    | none => (st1, .panicked)
    | some sub =>
      let inv : CargoInvocation :=
        { compiler := compiler, mode := .rustc, target := target, subcommand := sub
          toolPath := none, sourceType := some .inTree
          allTargets := b.checkAllTargets, pSelectors := b.inTreeCrates "rustc-main" }
      let p := runCargo env st1 inv (args b.kind) (librustc_stamp b compiler target)
      if p.2 then
        let libdir := b.sysrootLibdir compiler target
        let hostdir := b.sysrootLibdir compiler compiler.host
        (add_to_sysroot p.1 libdir hostdir (librustc_stamp b compiler target), .ok)
      else
        (p.1, .buildFailed)
  | (st1, r) => (st1, r)

/-- The fixed identity a `tool_check_step!` instantiation closes over: the
lowercased type name (used in the stamp file name), the tool's source path
and its source-type classification. -/
structure ToolIdentity where
  name : String
  path : String
  sourceType : SourceType
deriving DecidableEq, Repr

/-- The `run` body generated by `tool_check_step!($name, $path, $source_type)`:
first `builder.ensure(Rustc { target })`, then build the one tool's crates
via `prepare_tool_cargo` (adding `--all-targets` when the command requests
full coverage, and no `-p` selectors) and publish under the tool's own
stamp. -/
def tool_check_run (tool : ToolIdentity) (env : Env) (b : Builder) (target : String)
    (st : St) : St × RunResult :=
  let compiler : Compiler := ⟨0, b.build⟩
  let st0 := { st with trace := st.trace ++ [.ensured (.rustc target)] }
  match Rustc.run env b target st0 with
  | (st1, .ok) =>
    match cargo_subcommand b.kind with
    | none => (st1, .panicked)
    | some sub =>
      let inv : CargoInvocation :=
        { compiler := compiler, mode := .toolRustc, target := target, subcommand := sub
          toolPath := some tool.path, sourceType := some tool.sourceType
          allTargets := b.checkAllTargets, pSelectors := [] }
      let p := runCargo env st1 inv (args b.kind) (tool_stamp b compiler target tool.name)
      if p.2 then
        let libdir := b.sysrootLibdir compiler target
        let hostdir := b.sysrootLibdir compiler compiler.host
        (add_to_sysroot p.1 libdir hostdir (tool_stamp b compiler target tool.name), .ok)
      else
        (p.1, .buildFailed)
  | (st1, r) => (st1, r)

/-- `tool_check_step!(Rustdoc, "src/tools/rustdoc", SourceType::InTree)`. -/
def Rustdoc.tool : ToolIdentity := ⟨"rustdoc", "src/tools/rustdoc", .inTree⟩

/-- `tool_check_step!(Clippy, "src/tools/clippy", SourceType::InTree)`. -/
def Clippy.tool : ToolIdentity := ⟨"clippy", "src/tools/clippy", .inTree⟩

/-- `tool_check_step!(Bootstrap, "src/bootstrap", SourceType::InTree)`. -/
def Bootstrap.tool : ToolIdentity := ⟨"bootstrap", "src/bootstrap", .inTree⟩

/-- `Rustdoc::run`. -/
def Rustdoc.run (env : Env) (b : Builder) (target : String) (st : St) : St × RunResult :=
  tool_check_run Rustdoc.tool env b target st

/-- `Clippy::run`. -/
def Clippy.run (env : Env) (b : Builder) (target : String) (st : St) : St × RunResult :=
  tool_check_run Clippy.tool env b target st

/-- `Bootstrap::run`. -/
def Bootstrap.run (env : Env) (b : Builder) (target : String) (st : St) : St × RunResult :=
  tool_check_run Bootstrap.tool env b target st

/-! ## Trace observations -/

/-- Is this event an external compiler invocation? -/
def isInvoked : Event → Bool
  | .invoked _ _ _ _ => true
  | _ => false

/-- Is this event an invocation carrying `--all-targets` (a secondary /
full-coverage style invocation)? -/
def isAllTargetsInvoke : Event → Bool
  | .invoked inv _ _ _ => inv.allTargets
  | _ => false

/-- Is this event an invocation in the given build mode? -/
def isModeInvoke (m : Mode) : Event → Bool
  | .invoked inv _ _ _ => decide (inv.mode = m)
  | _ => false

/-- Is this event a publish of the given stamp? -/
def isPublishOf (p : Path) : Event → Bool
  | .published _ _ q => decide (q = p)
  | _ => false

/-- The stamp written, when the event is a stamp write. -/
def stampOf : Event → Option Path
  | .stamped p => some p
  | _ => none

/-- The stamp published, when the event is a publish. -/
def publishOf : Event → Option Path
  | .published _ _ p => some p
  | _ => none

/-- The dependency request, when the event is an `ensure`. -/
def ensuredOf : Event → Option Request
  | .ensured r => some r
  | _ => none

/-- The `-p` selectors of an invocation event (and `[]` otherwise). -/
def pSelectorsOf : Event → List String
  | .invoked inv _ _ _ => inv.pSelectors
  | _ => []

/-- The stamp path an invocation was run against. -/
def invokedStampOf : Event → Option Path
  | .invoked _ _ p _ => some p
  | _ => none

/-- The stamp paths written along a trace, in order. -/
def stampedPaths (tr : List Event) : List Path := tr.filterMap stampOf

/-- The stamp paths published along a trace, in order. -/
def publishedPaths (tr : List Event) : List Path := tr.filterMap publishOf

/-- The dependency requests issued along a trace, in order. -/
def ensuredRequests (tr : List Event) : List Request := tr.filterMap ensuredOf

/-- Fold for `publishPrecedes`: `seen` records whether a `pub` event has
already occurred; every `inv` event must find `seen` true. -/
def seenBefore (pub inv : Event → Bool) : List Event → Bool → Bool
  | [], _ => true
  | e :: tr, seen => (!(inv e) || seen) && seenBefore pub inv tr (seen || pub e)

/-- Every `inv` event of the trace is strictly preceded by a `pub` event. -/
def publishPrecedes (pub inv : Event → Bool) (tr : List Event) : Bool :=
  seenBefore pub inv tr false

/-- Walk a trace carrying the stamps whose build invocation has already
succeeded; a stamp write or a publish is only allowed for such a stamp. -/
def goodStamps : List Event → List Path → Bool
  | [], _ => true
  | .invoked _ _ p true :: tr, good => goodStamps tr (p :: good)
  | .stamped p :: tr, good => decide (p ∈ good) && goodStamps tr good
  | .published _ _ p :: tr, good => decide (p ∈ good) && goodStamps tr good
  | _ :: tr, good => goodStamps tr good

/-- Every stamp write and every publish in the trace happens after the
successful completion of the external build invocation for that stamp. -/
def noPartial (tr : List Event) : Bool := goodStamps tr []

/-- Forget the verb-dependent part of an invocation (its cargo sub-command). -/
def CargoInvocation.eraseVerb (inv : CargoInvocation) : CargoInvocation :=
  { inv with subcommand := "" }

/-- Forget the verb-dependent parts of an event (an invocation's cargo
sub-command and its extra arguments). -/
def Event.eraseVerb : Event → Event
  | .invoked inv _ p s => .invoked inv.eraseVerb [] p s
  | e => e

/-- Two states agree up to the verb-dependent parts of their traces. -/
def StSim (st₁ st₂ : St) : Prop :=
  st₁.ctr = st₂.ctr ∧ st₁.stamps = st₂.stamps ∧ st₁.sysroot = st₂.sysroot ∧
  st₁.trace.map Event.eraseVerb = st₂.trace.map Event.eraseVerb

/-- A concrete environment in which every external invocation succeeds and
produces one artifact file. -/
def envOk : Env := ⟨fun _ => true, fun _ => [("lib.rmeta", 7)]⟩

/-- A concrete builder running `check` with full coverage requested. -/
def bFull : Builder :=
  { kind := .check
    cmd := .check true
    build := "host"
    inTreeCrates := fun cls =>
      if cls = "test" then ["core", "alloc", "std", "test"] else ["rustc-main"]
    cargoOut := fun _ _ _ => "out"
    sysrootLibdir := fun _ _ => "lib" }

/-- A concrete builder running `check` without full coverage. -/
def bPlain : Builder :=
  { kind := .check
    cmd := .check false
    build := "host"
    inTreeCrates := fun cls =>
      if cls = "test" then ["core", "alloc", "std", "test"] else ["rustc-main"]
    cargoOut := fun _ _ _ => "out"
    sysrootLibdir := fun _ _ => "lib" }

/-! ## Publisher lookup lemmas -/

lemma sysLookup_upsert_self (sys : List (String × String × Nat)) (d n : String) (c : Nat) :
    sysLookup (sysUpsert sys d n c) d n = some c := by
  unfold sysUpsert
  split
  · assumption
  · simp [sysLookup]

lemma sysLookup_upsert_frame (sys : List (String × String × Nat)) (d n : String) (c : Nat)
    (d' n' : String) (h : ¬(d = d' ∧ n = n')) :
    sysLookup (sysUpsert sys d n c) d' n' = sysLookup sys d' n' := by
  unfold sysUpsert
  split
  · rfl
  · simp [sysLookup, h]

lemma sysLookup_publish_frame (arts : List (String × Nat))
    (sys : List (String × String × Nat)) (d d' n' : String)
    (h : d ≠ d' ∨ n' ∉ arts.map Prod.fst) :
    sysLookup (sysPublish sys d arts) d' n' = sysLookup sys d' n' := by
  induction arts generalizing sys with
  | nil => rfl
  | cons a rest ih =>
    have hrest : d ≠ d' ∨ n' ∉ rest.map Prod.fst := by
      rcases h with h | h
      · exact Or.inl h
      · exact Or.inr (fun hm => h (by simp [List.map_cons]; right; simpa using hm))
    have hup : ¬(d = d' ∧ a.1 = n') := by
      rcases h with h | h
      · exact fun hc => h hc.1
      · exact fun hc => h (List.mem_map.2 ⟨a, List.mem_cons_self a rest, hc.2⟩)
    rw [sysPublish, ih _ hrest, sysLookup_upsert_frame _ _ _ _ _ _ hup]

lemma sysLookup_publish_mem (arts : List (String × Nat))
    (sys : List (String × String × Nat)) (d n : String) (c : Nat)
    (hnd : (arts.map Prod.fst).Nodup) (hm : (n, c) ∈ arts) :
    sysLookup (sysPublish sys d arts) d n = some c := by
  induction arts generalizing sys with
  | nil => simp at hm
  | cons a rest ih =>
    rw [List.map_cons, List.nodup_cons] at hnd
    rcases List.mem_cons.1 hm with h | h
    · subst h
      rw [sysPublish, sysLookup_publish_frame rest _ d d n (Or.inr hnd.1)]
      exact sysLookup_upsert_self sys d n c
    · exact ih _ hnd.2 h

/-- Full effect of the dual-directory publish on lookups: every artifact in
the list is afterwards found, with its own content, in both destination
directories. -/
lemma sysLookup_dual_publish (arts : List (String × Nat))
    (sys : List (String × String × Nat)) (l h : String) (n : String) (c : Nat)
    (hnd : (arts.map Prod.fst).Nodup) (hm : (n, c) ∈ arts) :
    sysLookup (sysPublish (sysPublish sys l arts) h arts) l n = some c ∧
    sysLookup (sysPublish (sysPublish sys l arts) h arts) h n = some c := by
  refine ⟨?_, sysLookup_publish_mem arts _ h n c hnd hm⟩
  by_cases hd : h = l
  · subst hd
    exact sysLookup_publish_mem arts _ h n c hnd hm
  · rw [sysLookup_publish_frame arts _ h l n (Or.inl hd)]
    exact sysLookup_publish_mem arts _ l n c hnd hm

lemma checkAllTargets_set_true (b : Builder) :
    ({ b with cmd := .check true } : Builder).checkAllTargets = true := rfl

lemma checkAllTargets_set_false (b : Builder) :
    ({ b with cmd := .check false } : Builder).checkAllTargets = false := rfl

/-- C5: after a unit's successful build and publish, every artifact file the
build produced (as enumerated by the unit's stamp) is present with identical
content in both the target's sysroot library directory and the host's
sysroot library directory — for the library, compiler and tool units. -/
theorem publish_completeness (env : Env) (b : Builder) (target : String)
    (S : List (Path × List (String × Nat))) (Y : List (String × String × Nat))
    (tool : ToolIdentity)
    (hsub : cargo_subcommand b.kind ≠ none) (hall : b.checkAllTargets = false)
    (h0 : env.outcome 0 = true) (h1 : env.outcome 1 = true)
    (h2 : env.outcome 2 = true) :
    (∀ n c, ((env.artifacts 0).map Prod.fst).Nodup → (n, c) ∈ env.artifacts 0 →
      sysLookup (Std.run env b target (St.start S Y)).1.sysroot
        (b.sysrootLibdir ⟨0, b.build⟩ target) n = some c ∧
      sysLookup (Std.run env b target (St.start S Y)).1.sysroot
        (b.sysrootLibdir ⟨0, b.build⟩ b.build) n = some c) ∧
    (∀ n c, ((env.artifacts 1).map Prod.fst).Nodup → (n, c) ∈ env.artifacts 1 →
      sysLookup (Rustc.run env b target (St.start S Y)).1.sysroot
        (b.sysrootLibdir ⟨0, b.build⟩ target) n = some c ∧
      sysLookup (Rustc.run env b target (St.start S Y)).1.sysroot
        (b.sysrootLibdir ⟨0, b.build⟩ b.build) n = some c) ∧
    (∀ n c, ((env.artifacts 2).map Prod.fst).Nodup → (n, c) ∈ env.artifacts 2 →
      sysLookup (tool_check_run tool env b target (St.start S Y)).1.sysroot
        (b.sysrootLibdir ⟨0, b.build⟩ target) n = some c ∧
      sysLookup (tool_check_run tool env b target (St.start S Y)).1.sysroot
        (b.sysrootLibdir ⟨0, b.build⟩ b.build) n = some c) := by
  rcases hs : cargo_subcommand b.kind with _ | sub
  · exact absurd hs hsub
  · refine ⟨fun n c hnd hm => ?_, fun n c hnd hm => ?_, fun n c hnd hm => ?_⟩ <;>
      simp [Std.run, Rustc.run, tool_check_run, runCargo, add_to_sysroot,
        St.start, hs, hall, h0, h1, h2, stampLookup] <;>
      exact sysLookup_dual_publish _ _ _ _ n c hnd hm

lemma StSim.refl (st : St) : StSim st st := ⟨rfl, rfl, rfl, rfl⟩

lemma kind_set_cmd (b : Builder) (k : Kind) : ({ b with kind := k } : Builder).cmd = b.cmd := rfl

lemma kind_set_build (b : Builder) (k : Kind) :
    ({ b with kind := k } : Builder).build = b.build := rfl

lemma kind_set_inTreeCrates (b : Builder) (k : Kind) :
    ({ b with kind := k } : Builder).inTreeCrates = b.inTreeCrates := rfl

lemma kind_set_cargoOut (b : Builder) (k : Kind) :
    ({ b with kind := k } : Builder).cargoOut = b.cargoOut := rfl

lemma kind_set_sysrootLibdir (b : Builder) (k : Kind) :
    ({ b with kind := k } : Builder).sysrootLibdir = b.sysrootLibdir := rfl

lemma kind_set_kind (b : Builder) (k : Kind) : ({ b with kind := k } : Builder).kind = k := rfl

lemma kind_set_checkAllTargets (b : Builder) (k : Kind) :
    ({ b with kind := k } : Builder).checkAllTargets = b.checkAllTargets := rfl

lemma libstd_stamp_kind_set (b : Builder) (k : Kind) (c : Compiler) (t : String) :
    libstd_stamp { b with kind := k } c t = libstd_stamp b c t := rfl

lemma libstd_test_stamp_kind_set (b : Builder) (k : Kind) (c : Compiler) (t : String) :
    libstd_test_stamp { b with kind := k } c t = libstd_test_stamp b c t := rfl

lemma librustc_stamp_kind_set (b : Builder) (k : Kind) (c : Compiler) (t : String) :
    librustc_stamp { b with kind := k } c t = librustc_stamp b c t := rfl

lemma tool_stamp_kind_set (b : Builder) (k : Kind) (c : Compiler) (t nm : String) :
    tool_stamp { b with kind := k } c t nm = tool_stamp b c t nm := rfl

lemma runCargo_sim (env : Env) {st₁ st₂ : St} (inv₁ inv₂ : CargoInvocation)
    (e₁ e₂ : List String) (p : Path) (h : StSim st₁ st₂)
    (hinv : inv₁.eraseVerb = inv₂.eraseVerb) :
    StSim (runCargo env st₁ inv₁ e₁ p).1 (runCargo env st₂ inv₂ e₂ p).1 ∧
    (runCargo env st₁ inv₁ e₁ p).2 = (runCargo env st₂ inv₂ e₂ p).2 := by
  obtain ⟨hc, hs, hy, ht⟩ := h
  unfold runCargo
  rw [← hc]
  cases ho : env.outcome st₁.ctr <;>
    simp [ho, StSim, hc, hs, hy, ht, Event.eraseVerb, hinv, List.map_append]

lemma add_to_sysroot_sim {st₁ st₂ : St} (l hdir : String) (p : Path)
    (h : StSim st₁ st₂) :
    StSim (add_to_sysroot st₁ l hdir p) (add_to_sysroot st₂ l hdir p) := by
  obtain ⟨hc, hs, hy, ht⟩ := h
  simp [add_to_sysroot, StSim, hc, hs, hy, ht, Event.eraseVerb, List.map_append]

lemma std_run_sim (env : Env) (b : Builder) (k₁ k₂ : Kind) (t : String) {st₁ st₂ : St}
    (h : StSim st₁ st₂) (sub₁ sub₂ : String)
    (hk₁ : cargo_subcommand k₁ = some sub₁) (hk₂ : cargo_subcommand k₂ = some sub₂) :
    StSim (Std.run env { b with kind := k₁ } t st₁).1
      (Std.run env { b with kind := k₂ } t st₂).1 ∧
    (Std.run env { b with kind := k₁ } t st₁).2 =
      (Std.run env { b with kind := k₂ } t st₂).2 := by
  obtain ⟨h1, hb1⟩ := runCargo_sim env
    ⟨⟨0, b.build⟩, .std, t, sub₁, none, some .inTree, false, []⟩
    ⟨⟨0, b.build⟩, .std, t, sub₂, none, some .inTree, false, []⟩
    (args k₁) (args k₂) (libstd_stamp b ⟨0, b.build⟩ t) h rfl
  simp only [Std.run, kind_set_kind, kind_set_cmd, kind_set_build,
    kind_set_inTreeCrates, kind_set_cargoOut, kind_set_sysrootLibdir,
    kind_set_checkAllTargets, libstd_stamp_kind_set, libstd_test_stamp_kind_set,
    hk₁, hk₂]
  rw [← hb1]
  cases hfst : (runCargo env st₁
      ⟨⟨0, b.build⟩, .std, t, sub₁, none, some .inTree, false, []⟩ (args k₁)
      (libstd_stamp b ⟨0, b.build⟩ t)).2
  · rw [if_neg (by simp), if_neg (by simp)]
    exact ⟨h1, rfl⟩
  · rw [if_pos rfl, if_pos rfl]
    have h2 := add_to_sysroot_sim (b.sysrootLibdir ⟨0, b.build⟩ t)
      (b.sysrootLibdir ⟨0, b.build⟩ b.build) (libstd_stamp b ⟨0, b.build⟩ t) h1
    cases hall : b.checkAllTargets
    · rw [if_neg (by simp), if_neg (by simp)]
      exact ⟨h2, rfl⟩
    · rw [if_pos rfl, if_pos rfl]
      obtain ⟨h3, hb3⟩ := runCargo_sim env
        ⟨⟨0, b.build⟩, .std, t, sub₁, none, some .inTree, true, b.inTreeCrates "test"⟩
        ⟨⟨0, b.build⟩, .std, t, sub₂, none, some .inTree, true, b.inTreeCrates "test"⟩
        (args k₁) (args k₂) (libstd_test_stamp b ⟨0, b.build⟩ t) h2 rfl
      exact ⟨h3, by simp only [hb3]⟩

lemma rustc_run_sim (env : Env) (b : Builder) (k₁ k₂ : Kind) (t : String) {st₁ st₂ : St}
    (h : StSim st₁ st₂) (sub₁ sub₂ : String)
    (hk₁ : cargo_subcommand k₁ = some sub₁) (hk₂ : cargo_subcommand k₂ = some sub₂) :
    StSim (Rustc.run env { b with kind := k₁ } t st₁).1
      (Rustc.run env { b with kind := k₂ } t st₂).1 ∧
    (Rustc.run env { b with kind := k₁ } t st₁).2 =
      (Rustc.run env { b with kind := k₂ } t st₂).2 := by
  have h0 : StSim { st₁ with trace := st₁.trace ++ [Event.ensured (.std t)] }
      { st₂ with trace := st₂.trace ++ [Event.ensured (.std t)] } := by
    obtain ⟨hc, hs, hy, ht⟩ := h
    exact ⟨hc, hs, hy, by simp [List.map_append, ht, Event.eraseVerb]⟩
  obtain ⟨hstd, hres⟩ := std_run_sim env b k₁ k₂ t h0 sub₁ sub₂ hk₁ hk₂
  rcases hE₁ : Std.run env { b with kind := k₁ } t
      { st₁ with trace := st₁.trace ++ [Event.ensured (.std t)] } with ⟨s₁, r₁⟩
  rcases hE₂ : Std.run env { b with kind := k₂ } t
      { st₂ with trace := st₂.trace ++ [Event.ensured (.std t)] } with ⟨s₂, r₂⟩
  rw [hE₁, hE₂] at hstd hres
  dsimp only at hstd hres
  subst hres
  obtain ⟨h4, hb4⟩ := runCargo_sim env
    ⟨⟨0, b.build⟩, .rustc, t, sub₁, none, some .inTree, b.checkAllTargets,
      b.inTreeCrates "rustc-main"⟩
    ⟨⟨0, b.build⟩, .rustc, t, sub₂, none, some .inTree, b.checkAllTargets,
      b.inTreeCrates "rustc-main"⟩
    (args k₁) (args k₂) (librustc_stamp b ⟨0, b.build⟩ t) hstd rfl
  cases r₁ <;>
    simp only [Rustc.run, kind_set_kind, kind_set_cmd, kind_set_build,
      kind_set_inTreeCrates, kind_set_cargoOut, kind_set_sysrootLibdir,
      kind_set_checkAllTargets, librustc_stamp_kind_set, hE₁, hE₂, hk₁, hk₂]
  · rw [← hb4]
    cases hsnd : (runCargo env s₁
        ⟨⟨0, b.build⟩, .rustc, t, sub₁, none, some .inTree, b.checkAllTargets,
          b.inTreeCrates "rustc-main"⟩ (args k₁) (librustc_stamp b ⟨0, b.build⟩ t)).2
    · rw [if_neg (by simp), if_neg (by simp)]
      exact ⟨h4, rfl⟩
    · rw [if_pos rfl, if_pos rfl]
      exact ⟨add_to_sysroot_sim _ _ _ h4, rfl⟩
  · exact ⟨hstd, trivial⟩
  · exact ⟨hstd, trivial⟩

lemma tool_run_sim (tool : ToolIdentity) (env : Env) (b : Builder) (k₁ k₂ : Kind)
    (t : String) {st₁ st₂ : St} (h : StSim st₁ st₂) (sub₁ sub₂ : String)
    (hk₁ : cargo_subcommand k₁ = some sub₁) (hk₂ : cargo_subcommand k₂ = some sub₂) :
    StSim (tool_check_run tool env { b with kind := k₁ } t st₁).1
      (tool_check_run tool env { b with kind := k₂ } t st₂).1 ∧
    (tool_check_run tool env { b with kind := k₁ } t st₁).2 =
      (tool_check_run tool env { b with kind := k₂ } t st₂).2 := by
  have h0 : StSim { st₁ with trace := st₁.trace ++ [Event.ensured (.rustc t)] }
      { st₂ with trace := st₂.trace ++ [Event.ensured (.rustc t)] } := by
    obtain ⟨hc, hs, hy, ht⟩ := h
    exact ⟨hc, hs, hy, by simp [List.map_append, ht, Event.eraseVerb]⟩
  obtain ⟨hru, hres⟩ := rustc_run_sim env b k₁ k₂ t h0 sub₁ sub₂ hk₁ hk₂
  rcases hE₁ : Rustc.run env { b with kind := k₁ } t
      { st₁ with trace := st₁.trace ++ [Event.ensured (.rustc t)] } with ⟨s₁, r₁⟩
  rcases hE₂ : Rustc.run env { b with kind := k₂ } t
      { st₂ with trace := st₂.trace ++ [Event.ensured (.rustc t)] } with ⟨s₂, r₂⟩
  rw [hE₁, hE₂] at hru hres
  dsimp only at hru hres
  subst hres
  obtain ⟨h4, hb4⟩ := runCargo_sim env
    ⟨⟨0, b.build⟩, .toolRustc, t, sub₁, some tool.path, some tool.sourceType,
      b.checkAllTargets, []⟩
    ⟨⟨0, b.build⟩, .toolRustc, t, sub₂, some tool.path, some tool.sourceType,
      b.checkAllTargets, []⟩
    (args k₁) (args k₂) (tool_stamp b ⟨0, b.build⟩ t tool.name) hru rfl
  cases r₁ <;>
    simp only [tool_check_run, kind_set_kind, kind_set_cmd, kind_set_build,
      kind_set_inTreeCrates, kind_set_cargoOut, kind_set_sysrootLibdir,
      kind_set_checkAllTargets, tool_stamp_kind_set, hE₁, hE₂, hk₁, hk₂]
  · rw [← hb4]
    cases hsnd : (runCargo env s₁
        ⟨⟨0, b.build⟩, .toolRustc, t, sub₁, some tool.path, some tool.sourceType,
          b.checkAllTargets, []⟩ (args k₁) (tool_stamp b ⟨0, b.build⟩ t tool.name)).2
    · rw [if_neg (by simp), if_neg (by simp)]
      exact ⟨h4, rfl⟩
    · rw [if_pos rfl, if_pos rfl]
      exact ⟨add_to_sysroot_sim _ _ _ h4, rfl⟩
  · exact ⟨hru, trivial⟩
  · exact ⟨hru, trivial⟩

lemma cargo_subcommand_isSome (k : Kind) (h : k ∈ [Kind.check, Kind.clippy, Kind.fix]) :
    ∃ s, cargo_subcommand k = some s := by
  simp only [List.mem_cons, List.not_mem_nil, or_false] at h
  rcases h with rfl | rfl | rfl <;> exact ⟨_, rfl⟩

lemma ensuredRequests_map_eraseVerb (tr : List Event) :
    ensuredRequests (tr.map Event.eraseVerb) = ensuredRequests tr := by
  unfold ensuredRequests
  induction tr with
  | nil => rfl
  | cons e tr ih =>
    cases e <;> simp [Event.eraseVerb, ensuredOf, List.filterMap_cons, ih]

/-- C8: for the three verbs (check / clippy / fix), changing only the verb
changes neither the sequence of dependency requests nor anything else about
a unit run except the verb-dependent parts of the invocation events (the
cargo sub-command and the extra arguments); clippy's extra arguments are
`-- --cap-lints warn` and the other verbs add none. -/
theorem verb_noninterference (env : Env) (b : Builder) (target : String)
    (S : List (Path × List (String × Nat))) (Y : List (String × String × Nat))
    (tool : ToolIdentity) (k₁ k₂ : Kind)
    (h₁ : k₁ ∈ [Kind.check, Kind.clippy, Kind.fix])
    (h₂ : k₂ ∈ [Kind.check, Kind.clippy, Kind.fix]) :
    (ensuredRequests (Std.run env { b with kind := k₁ } target (St.start S Y)).1.trace =
      ensuredRequests (Std.run env { b with kind := k₂ } target (St.start S Y)).1.trace) ∧
    (ensuredRequests (Rustc.run env { b with kind := k₁ } target (St.start S Y)).1.trace =
      ensuredRequests (Rustc.run env { b with kind := k₂ } target (St.start S Y)).1.trace) ∧
    (ensuredRequests
        (tool_check_run tool env { b with kind := k₁ } target (St.start S Y)).1.trace =
      ensuredRequests
        (tool_check_run tool env { b with kind := k₂ } target (St.start S Y)).1.trace) ∧
    StSim (Std.run env { b with kind := k₁ } target (St.start S Y)).1
      (Std.run env { b with kind := k₂ } target (St.start S Y)).1 ∧
    (Std.run env { b with kind := k₁ } target (St.start S Y)).2 =
      (Std.run env { b with kind := k₂ } target (St.start S Y)).2 ∧
    StSim (Rustc.run env { b with kind := k₁ } target (St.start S Y)).1
      (Rustc.run env { b with kind := k₂ } target (St.start S Y)).1 ∧
    (Rustc.run env { b with kind := k₁ } target (St.start S Y)).2 =
      (Rustc.run env { b with kind := k₂ } target (St.start S Y)).2 ∧
    StSim (tool_check_run tool env { b with kind := k₁ } target (St.start S Y)).1
      (tool_check_run tool env { b with kind := k₂ } target (St.start S Y)).1 ∧
    (tool_check_run tool env { b with kind := k₁ } target (St.start S Y)).2 =
      (tool_check_run tool env { b with kind := k₂ } target (St.start S Y)).2 ∧
    args .check = [] ∧ args .fix = [] ∧ args .clippy = ["--", "--cap-lints", "warn"] ∧
    cargo_subcommand .check = some "check" ∧ cargo_subcommand .clippy = some "clippy" ∧
    cargo_subcommand .fix = some "fix" := by
  obtain ⟨sub₁, hk₁⟩ := cargo_subcommand_isSome k₁ h₁
  obtain ⟨sub₂, hk₂⟩ := cargo_subcommand_isSome k₂ h₂
  obtain ⟨hs1, hs2⟩ := std_run_sim env b k₁ k₂ target (StSim.refl (St.start S Y))
    sub₁ sub₂ hk₁ hk₂
  obtain ⟨hr1, hr2⟩ := rustc_run_sim env b k₁ k₂ target (StSim.refl (St.start S Y))
    sub₁ sub₂ hk₁ hk₂
  obtain ⟨ht1, ht2⟩ := tool_run_sim tool env b k₁ k₂ target (StSim.refl (St.start S Y))
    sub₁ sub₂ hk₁ hk₂
  refine ⟨?_, ?_, ?_, hs1, hs2, hr1, hr2, ht1, ht2, rfl, rfl, rfl, rfl, rfl, rfl⟩
  · rw [← ensuredRequests_map_eraseVerb, hs1.2.2.2, ensuredRequests_map_eraseVerb]
  · rw [← ensuredRequests_map_eraseVerb, hr1.2.2.2, ensuredRequests_map_eraseVerb]
  · rw [← ensuredRequests_map_eraseVerb, ht1.2.2.2, ensuredRequests_map_eraseVerb]

/-- C3: no partial-success state.  In every unit run, stamp writes and
sysroot publishes happen only after the successful completion of the
corresponding external build invocation; when the library build fails, the
library run leaves stamps and sysroot untouched; when the compiler (resp.
tool) build fails, the compiler (resp. tool) stamp is unchanged, that stamp
is never published, and the run does not report success. -/
theorem no_partial_success (env : Env) (b : Builder) (target : String)
    (S : List (Path × List (String × Nat))) (Y : List (String × String × Nat))
    (tool : ToolIdentity) :
    noPartial (Std.run env b target (St.start S Y)).1.trace = true ∧
    noPartial (Rustc.run env b target (St.start S Y)).1.trace = true ∧
    noPartial (tool_check_run tool env b target (St.start S Y)).1.trace = true ∧
    (env.outcome 0 = false →
      (Std.run env b target (St.start S Y)).1.stamps = S ∧
      (Std.run env b target (St.start S Y)).1.sysroot = Y ∧
      (Std.run env b target (St.start S Y)).2 ≠ .ok) ∧
    (b.checkAllTargets = false → env.outcome 0 = true → env.outcome 1 = false →
      stampLookup (Rustc.run env b target (St.start S Y)).1.stamps
        (librustc_stamp b ⟨0, b.build⟩ target) =
        stampLookup S (librustc_stamp b ⟨0, b.build⟩ target) ∧
      (Rustc.run env b target (St.start S Y)).1.trace.countP
        (isPublishOf (librustc_stamp b ⟨0, b.build⟩ target)) = 0 ∧
      (Rustc.run env b target (St.start S Y)).2 ≠ .ok) ∧
    (tool ∈ [Rustdoc.tool, Clippy.tool, Bootstrap.tool] →
      b.checkAllTargets = false → env.outcome 0 = true → env.outcome 1 = true →
      env.outcome 2 = false →
      stampLookup (tool_check_run tool env b target (St.start S Y)).1.stamps
        (tool_stamp b ⟨0, b.build⟩ target tool.name) =
        stampLookup S (tool_stamp b ⟨0, b.build⟩ target tool.name) ∧
      (tool_check_run tool env b target (St.start S Y)).1.trace.countP
        (isPublishOf (tool_stamp b ⟨0, b.build⟩ target tool.name)) = 0 ∧
      (tool_check_run tool env b target (St.start S Y)).2 ≠ .ok) := by
  refine ⟨?_, ?_, ?_, ?_, ?_, ?_⟩
  · rcases hsub : cargo_subcommand b.kind with _ | sub <;>
      cases hall : b.checkAllTargets <;>
      cases h0 : env.outcome 0 <;>
      cases h1 : env.outcome 1 <;>
      simp [Std.run, runCargo, add_to_sysroot, St.start, hsub, hall, h0, h1,
        noPartial, goodStamps, stampLookup, libstd_stamp, libstd_test_stamp]
  · rcases hsub : cargo_subcommand b.kind with _ | sub <;>
      cases hall : b.checkAllTargets <;>
      cases h0 : env.outcome 0 <;>
      cases h1 : env.outcome 1 <;>
      cases h2 : env.outcome 2 <;>
      simp [Rustc.run, Std.run, runCargo, add_to_sysroot, St.start, hsub, hall,
        h0, h1, h2, noPartial, goodStamps, stampLookup,
        libstd_stamp, libstd_test_stamp, librustc_stamp]
  · rcases hsub : cargo_subcommand b.kind with _ | sub <;>
      cases hall : b.checkAllTargets <;>
      cases h0 : env.outcome 0 <;>
      cases h1 : env.outcome 1 <;>
      cases h2 : env.outcome 2 <;>
      cases h3 : env.outcome 3 <;>
      simp [tool_check_run, Rustc.run, Std.run, runCargo, add_to_sysroot,
        St.start, hsub, hall, h0, h1, h2, h3, noPartial, goodStamps, stampLookup,
        libstd_stamp, libstd_test_stamp, librustc_stamp, tool_stamp]
  · intro h0
    rcases hsub : cargo_subcommand b.kind with _ | sub <;>
      simp [Std.run, runCargo, St.start, hsub, h0]
  · intro hall h0 h1
    rcases hsub : cargo_subcommand b.kind with _ | sub <;>
      simp [Rustc.run, Std.run, runCargo, add_to_sysroot, St.start, hsub, hall,
        h0, h1, stampLookup, isPublishOf, List.countP_cons,
        libstd_stamp, librustc_stamp]
  · intro htool hall h0 h1 h2
    simp only [List.mem_cons, List.not_mem_nil, or_false] at htool
    rcases htool with h | h | h <;> subst h <;>
      rcases hsub : cargo_subcommand b.kind with _ | sub <;>
      simp [tool_check_run, Rustc.run, Std.run, runCargo, add_to_sysroot,
        St.start, hsub, hall, h0, h1, h2, stampLookup, isPublishOf,
        List.countP_cons, Rustdoc.tool, Clippy.tool, Bootstrap.tool,
        libstd_stamp, librustc_stamp, tool_stamp]

set_option maxHeartbeats 1600000 in
/-- C7: stamp names are derived deterministically from the tool identity, so
the three instantiated tools have pairwise distinct stamp paths; a run of
tool A leaves tool B's stamp file and every sysroot entry whose file name
the run does not produce unchanged; and every tool-mode invocation of A's
run uses exactly A's stamp path. -/
theorem tool_independence (env : Env) (b : Builder) (target : String)
    (S : List (Path × List (String × Nat))) (Y : List (String × String × Nat))
    (A B : ToolIdentity) (d n : String)
    (hA : A ∈ [Rustdoc.tool, Clippy.tool, Bootstrap.tool])
    (hB : B ∈ [Rustdoc.tool, Clippy.tool, Bootstrap.tool]) (hAB : A ≠ B)
    (hart : ∀ k, n ∉ (env.artifacts k).map Prod.fst) :
    tool_stamp b ⟨0, b.build⟩ target A.name ≠ tool_stamp b ⟨0, b.build⟩ target B.name ∧
    stampLookup (tool_check_run A env b target (St.start S Y)).1.stamps
      (tool_stamp b ⟨0, b.build⟩ target B.name) =
      stampLookup S (tool_stamp b ⟨0, b.build⟩ target B.name) ∧
    sysLookup (tool_check_run A env b target (St.start S Y)).1.sysroot d n =
      sysLookup Y d n ∧
    (∀ e ∈ (tool_check_run A env b target (St.start S Y)).1.trace,
       isModeInvoke .toolRustc e = true →
       invokedStampOf e = some (tool_stamp b ⟨0, b.build⟩ target A.name)) := by
  simp only [List.mem_cons, List.not_mem_nil, or_false] at hA hB
  refine ⟨?_, ?_, ?_, ?_⟩
  · rcases hA with hA | hA | hA <;> rcases hB with hB | hB | hB <;>
      subst hA <;> subst hB <;>
      first
      | exact absurd rfl hAB
      | simp [Rustdoc.tool, Clippy.tool, Bootstrap.tool, tool_stamp]
  · rcases hA with hA | hA | hA <;> rcases hB with hB | hB | hB <;>
      subst hA <;> subst hB <;>
      first
      | exact absurd rfl hAB
      | (rcases hsub : cargo_subcommand b.kind with _ | sub <;>
          cases hall : b.checkAllTargets <;>
          cases h0 : env.outcome 0 <;>
          cases h1 : env.outcome 1 <;>
          cases h2 : env.outcome 2 <;>
          cases h3 : env.outcome 3 <;>
          simp [tool_check_run, Rustc.run, Std.run, runCargo, add_to_sysroot,
            St.start, hsub, hall, h0, h1, h2, h3, stampLookup,
            Rustdoc.tool, Clippy.tool, Bootstrap.tool,
            libstd_stamp, libstd_test_stamp, librustc_stamp, tool_stamp])
  · rcases hsub : cargo_subcommand b.kind with _ | sub <;>
      cases hall : b.checkAllTargets <;>
      cases h0 : env.outcome 0 <;>
      cases h1 : env.outcome 1 <;>
      cases h2 : env.outcome 2 <;>
      cases h3 : env.outcome 3 <;>
      simp [tool_check_run, Rustc.run, Std.run, runCargo, add_to_sysroot,
        St.start, hsub, hall, h0, h1, h2, h3, stampLookup,
        libstd_stamp, libstd_test_stamp, librustc_stamp, tool_stamp,
        sysLookup_publish_frame, hart]
  · rcases hsub : cargo_subcommand b.kind with _ | sub <;>
      cases hall : b.checkAllTargets <;>
      cases h0 : env.outcome 0 <;>
      cases h1 : env.outcome 1 <;>
      cases h2 : env.outcome 2 <;>
      cases h3 : env.outcome 3 <;>
      simp [tool_check_run, Rustc.run, Std.run, runCargo, add_to_sysroot,
        St.start, hsub, hall, h0, h1, h2, h3, isModeInvoke, invokedStampOf,
        libstd_stamp, libstd_test_stamp, librustc_stamp, tool_stamp]

/-- C1: in a compiler-unit run, the compiler invocation never happens before
the library stamp has been published to the sysroot; in any tool-unit run,
the tool invocation never happens before the compiler stamp has been
published. -/
theorem dependency_ordering (env : Env) (b : Builder) (target : String)
    (S : List (Path × List (String × Nat))) (Y : List (String × String × Nat))
    (tool : ToolIdentity) :
    publishPrecedes (isPublishOf (libstd_stamp b ⟨0, b.build⟩ target))
      (isModeInvoke .rustc) (Rustc.run env b target (St.start S Y)).1.trace = true ∧
    publishPrecedes (isPublishOf (librustc_stamp b ⟨0, b.build⟩ target))
      (isModeInvoke .toolRustc) (tool_check_run tool env b target (St.start S Y)).1.trace
      = true := by
  rcases hsub : cargo_subcommand b.kind with _ | sub <;>
    cases hall : b.checkAllTargets <;>
    cases h0 : env.outcome 0 <;>
    cases h1 : env.outcome 1 <;>
    cases h2 : env.outcome 2 <;>
    cases h3 : env.outcome 3 <;>
    simp [Rustc.run, Std.run, tool_check_run, runCargo, add_to_sysroot, St.start,
      hsub, hall, h0, h1, h2, h3, publishPrecedes, seenBefore, isPublishOf, isModeInvoke,
      libstd_stamp, librustc_stamp, libstd_test_stamp, tool_stamp]

/-- C2: with full coverage requested, the library unit's secondary
(all-targets) pass starts only after the first pass's artifacts were
published into the sysroot, and its explicit `-p` selector list is exactly
the in-tree crate set of the `"test"` (library) classification. -/
theorem std_two_pass (env : Env) (b : Builder) (target : String)
    (S : List (Path × List (String × Nat))) (Y : List (String × String × Nat))
    (hall : b.checkAllTargets = true) :
    publishPrecedes (isPublishOf (libstd_stamp b ⟨0, b.build⟩ target))
      isAllTargetsInvoke (Std.run env b target (St.start S Y)).1.trace = true ∧
    ∀ e ∈ (Std.run env b target (St.start S Y)).1.trace,
      isAllTargetsInvoke e = true → pSelectorsOf e = b.inTreeCrates "test" := by
  rcases hsub : cargo_subcommand b.kind with _ | sub <;>
    cases h0 : env.outcome 0 <;>
    cases h1 : env.outcome 1 <;>
    simp [Std.run, runCargo, add_to_sysroot, St.start, hsub, hall, h0, h1,
      publishPrecedes, seenBefore, isPublishOf, isAllTargetsInvoke, pSelectorsOf,
      libstd_stamp, libstd_test_stamp]

/-- C10: the library unit's secondary pass never publishes: every publish in
a library-unit run uses the first pass's stamp, the sysroot after a
full-coverage run equals the sysroot after a non-coverage run, and the
all-targets invocation is recorded only under the distinct
`.libstd-check-test.stamp`. -/
theorem std_secondary_no_publish (env : Env) (b : Builder) (target : String)
    (S : List (Path × List (String × Nat))) (Y : List (String × String × Nat)) :
    (∀ p ∈ publishedPaths (Std.run env b target (St.start S Y)).1.trace,
       p = libstd_stamp b ⟨0, b.build⟩ target) ∧
    (Std.run env { b with cmd := .check true } target (St.start S Y)).1.sysroot =
      (Std.run env { b with cmd := .check false } target (St.start S Y)).1.sysroot ∧
    (∀ e ∈ (Std.run env b target (St.start S Y)).1.trace,
       isAllTargetsInvoke e = true →
         invokedStampOf e = some (libstd_test_stamp b ⟨0, b.build⟩ target)) ∧
    libstd_test_stamp b ⟨0, b.build⟩ target ≠ libstd_stamp b ⟨0, b.build⟩ target := by
  rcases hsub : cargo_subcommand b.kind with _ | sub <;>
    cases hall : b.checkAllTargets <;>
    cases h0 : env.outcome 0 <;>
    cases h1 : env.outcome 1 <;>
    simp [Std.run, runCargo, add_to_sysroot, St.start, hsub, hall, h0, h1,
      checkAllTargets_set_true, checkAllTargets_set_false,
      publishedPaths, publishOf, invokedStampOf,
      isAllTargetsInvoke, List.filterMap_cons, libstd_stamp, libstd_test_stamp]

/-- C9: the verb-to-subcommand map is total exactly on check, clippy and
fix; under any other kind every build unit panics (the `unreachable!` in
`cargo_subcommand`) before any external build invocation happens. -/
theorem cargo_subcommand_totality :
    (cargo_subcommand .check = some "check" ∧ cargo_subcommand .clippy = some "clippy" ∧
      cargo_subcommand .fix = some "fix") ∧
    (∀ k, cargo_subcommand k = none ↔ (k ≠ .check ∧ k ≠ .clippy ∧ k ≠ .fix)) ∧
    (∀ (env : Env) (b : Builder) (target : String) S Y (tool : ToolIdentity),
      cargo_subcommand b.kind = none →
      (Std.run env b target (St.start S Y)).2 = .panicked ∧
      (Std.run env b target (St.start S Y)).1.trace.countP isInvoked = 0 ∧
      (Rustc.run env b target (St.start S Y)).2 = .panicked ∧
      (Rustc.run env b target (St.start S Y)).1.trace.countP isInvoked = 0 ∧
      (tool_check_run tool env b target (St.start S Y)).2 = .panicked ∧
      (tool_check_run tool env b target (St.start S Y)).1.trace.countP isInvoked = 0) := by
  refine ⟨⟨rfl, rfl, rfl⟩, ?_, ?_⟩
  · intro k
    cases k <;> simp [cargo_subcommand]
  · intro env b target S Y tool h
    simp [Std.run, Rustc.run, tool_check_run, St.start, h, isInvoked,
      List.countP_cons]

/-- C6: building the Library unit with verb `check`, full coverage off and a
succeeding external build performs exactly one external invocation, writes
exactly the primary library stamp, and never issues an `--all-targets`
(secondary) invocation. -/
theorem std_check_single_pass (env : Env) (b : Builder) (target : String)
    (S : List (Path × List (String × Nat))) (Y : List (String × String × Nat))
    (hk : b.kind = .check) (hc : b.checkAllTargets = false)
    (hs : env.outcome 0 = true) :
    (Std.run env b target (St.start S Y)).2 = .ok ∧
    ((Std.run env b target (St.start S Y)).1.trace.countP isInvoked) = 1 ∧
    stampedPaths (Std.run env b target (St.start S Y)).1.trace =
      [libstd_stamp b ⟨0, b.build⟩ target] ∧
    ((Std.run env b target (St.start S Y)).1.trace.countP isAllTargetsInvoke) = 0 := by
  simp [Std.run, runCargo, add_to_sysroot, St.start, hk, hc, hs, cargo_subcommand,
    stampedPaths, stampOf, isInvoked, isAllTargetsInvoke, List.countP_cons]

/-- C4 counterexample: with the full-coverage modifier set, the library
unit's primary invocation carries no `-p` selectors although the library's
in-tree crate set is non-empty, and a tool unit's invocation carries no `-p`
selectors either — so it is false that every build unit's invocation adds
explicit per-crate selectors for every crate in its scope. -/
theorem full_coverage_selectors_counterexample :
    (∃ e ∈ (Std.run envOk bFull "tgt" (St.start [] [])).1.trace,
       isInvoked e = true ∧ pSelectorsOf e = [] ∧ bFull.inTreeCrates "test" ≠ []) ∧
    (∃ e ∈ (Rustdoc.run envOk bFull "tgt" (St.start [] [])).1.trace,
       isModeInvoke .toolRustc e = true ∧ pSelectorsOf e = []) := by decide

set_option maxHeartbeats 1600000 in
/-- C4 (amended): under the full-coverage modifier only the library unit's
secondary pass carries the full library (`"test"`-tree) crate selectors; the
compiler unit always carries the `"rustc-main"`-tree selectors (with or
without the modifier) and honours the modifier via `--all-targets`; tool
invocations carry no `-p` selectors and honour the modifier only via
`--all-targets`; and no unit other than the library runs a second pass. -/
theorem full_coverage_selectors (env : Env) (b : Builder) (target : String)
    (S : List (Path × List (String × Nat))) (Y : List (String × String × Nat))
    (tool : ToolIdentity) :
    (∀ e ∈ (Std.run env b target (St.start S Y)).1.trace,
       isAllTargetsInvoke e = true → pSelectorsOf e = b.inTreeCrates "test") ∧
    (∀ e ∈ (Rustc.run env b target (St.start S Y)).1.trace,
       isModeInvoke .rustc e = true →
         pSelectorsOf e = b.inTreeCrates "rustc-main" ∧
         isAllTargetsInvoke e = b.checkAllTargets) ∧
    (∀ e ∈ (tool_check_run tool env b target (St.start S Y)).1.trace,
       isModeInvoke .toolRustc e = true →
         pSelectorsOf e = [] ∧ isAllTargetsInvoke e = b.checkAllTargets) ∧
    ((tool_check_run tool env b target (St.start S Y)).1.trace.countP
      (isModeInvoke .rustc) ≤ 1) ∧
    ((tool_check_run tool env b target (St.start S Y)).1.trace.countP
      (isModeInvoke .toolRustc) ≤ 1) := by
  refine ⟨?_, ?_, ?_⟩
  · rcases hsub : cargo_subcommand b.kind with _ | sub <;>
      cases hall : b.checkAllTargets <;>
      cases h0 : env.outcome 0 <;>
      cases h1 : env.outcome 1 <;>
      simp [Std.run, runCargo, add_to_sysroot, St.start,
        hsub, hall, h0, h1, isAllTargetsInvoke, pSelectorsOf,
        libstd_stamp, libstd_test_stamp]
  · rcases hsub : cargo_subcommand b.kind with _ | sub <;>
      cases hall : b.checkAllTargets <;>
      cases h0 : env.outcome 0 <;>
      cases h1 : env.outcome 1 <;>
      cases h2 : env.outcome 2 <;>
      simp [Rustc.run, Std.run, runCargo, add_to_sysroot, St.start,
        hsub, hall, h0, h1, h2, isAllTargetsInvoke, isModeInvoke, pSelectorsOf,
        libstd_stamp, libstd_test_stamp, librustc_stamp]
  · refine ⟨?_, ?_, ?_⟩ <;>
      (rcases hsub : cargo_subcommand b.kind with _ | sub <;>
        cases hall : b.checkAllTargets <;>
        cases h0 : env.outcome 0 <;>
        cases h1 : env.outcome 1 <;>
        cases h2 : env.outcome 2 <;>
        cases h3 : env.outcome 3 <;>
        simp [tool_check_run, Rustc.run, Std.run, runCargo, add_to_sysroot,
          St.start, hsub, hall, h0, h1, h2, h3, isAllTargetsInvoke, isModeInvoke,
          pSelectorsOf, List.countP_cons, libstd_stamp, libstd_test_stamp,
          librustc_stamp, tool_stamp])

/-! ## Witnesses -/

theorem std_two_pass_witness :
    bFull.checkAllTargets = true ∧
    (publishPrecedes (isPublishOf (libstd_stamp bFull ⟨0, bFull.build⟩ "tgt"))
      isAllTargetsInvoke (Std.run envOk bFull "tgt" (St.start [] [])).1.trace = true ∧
    ∀ e ∈ (Std.run envOk bFull "tgt" (St.start [] [])).1.trace,
      isAllTargetsInvoke e = true → pSelectorsOf e = bFull.inTreeCrates "test") :=
  ⟨rfl, std_two_pass envOk bFull "tgt" [] [] rfl⟩

theorem publish_completeness_witness :
    sysLookup (Std.run envOk bPlain "tgt" (St.start [] [])).1.sysroot
      (bPlain.sysrootLibdir ⟨0, bPlain.build⟩ "tgt") "lib.rmeta" = some 7 :=
  ((publish_completeness envOk bPlain "tgt" [] [] Rustdoc.tool
      (by decide) rfl rfl rfl rfl).1 "lib.rmeta" 7 (by decide) (by decide)).1

theorem std_check_single_pass_witness :
    (Std.run envOk bPlain "tgt" (St.start [] [])).2 = .ok ∧
    (Std.run envOk bPlain "tgt" (St.start [] [])).1.trace.countP isInvoked = 1 :=
  ⟨(std_check_single_pass envOk bPlain "tgt" [] [] rfl rfl rfl).1,
   (std_check_single_pass envOk bPlain "tgt" [] [] rfl rfl rfl).2.1⟩

theorem tool_independence_witness :
    stampLookup (tool_check_run Rustdoc.tool envOk bPlain "tgt" (St.start [] [])).1.stamps
      (tool_stamp bPlain ⟨0, bPlain.build⟩ "tgt" Clippy.tool.name) = none :=
  ((tool_independence envOk bPlain "tgt" [] [] Rustdoc.tool Clippy.tool "d" "other.rmeta"
      (by decide) (by decide) (by decide)
      (fun _ => by show ("other.rmeta" : String) ∉ ["lib.rmeta"]; decide)).2.1).trans rfl

theorem verb_noninterference_witness :
    ensuredRequests
        (Std.run envOk { bPlain with kind := Kind.check } "tgt" (St.start [] [])).1.trace =
      ensuredRequests
        (Std.run envOk { bPlain with kind := Kind.clippy } "tgt" (St.start [] [])).1.trace :=
  (verb_noninterference envOk bPlain "tgt" [] [] Rustdoc.tool Kind.check Kind.clippy
      (by decide) (by decide)).1

end BootstrapCheck
